import Mathlib

/-!
Shallow embedding of the change-capture-to-fanout pipeline of the
real-time order management system: the `ChangeStreamService`
(backend/src/services/changeStreamService.js), the `WebSocketService`
(backend/src/services/websocketService.js) and the `EmailService`
(backend/src/services/emailService.js), together with proofs about the
retry/backoff policy, the websocket broadcasts, the notification
isolation and the subscription registry.

Conventions of the embedding:
* Mongo documents carrying an order are modelled by `OrderRec`, keeping
  the fields the pipeline reads (`_id`, `customer_name`, `product_name`,
  `status`, `email`).  A possibly-absent string field is an
  `Option String`; JavaScript truthiness of such a field is `truthyStr`.
* A `socket.io` emission is an `Emission` value recording the target
  (broadcast to all, or a record-scoped room), the event name and the
  payload fields the claims talk about.  Timestamps are omitted.
* Asynchronous sends that may fail (nodemailer) are modelled by
  `Except String` values supplied as parameters; a JavaScript
  try/catch over such a call is a `match` whose error branch continues
  normally, mirroring the catch-and-log blocks of the source.
-/

/-- Order document as the pipeline sees it (backend/src/models/Order.js):
only the fields read by the change-stream service and the broadcasters
are kept.  `email` is optional in the schema. -/
structure OrderRec where
  _id : String
  customer_name : String
  product_name : String
  status : String
  email : Option String
deriving DecidableEq, Repr

/-- JavaScript truthiness of a possibly-undefined string field: an absent
field and the empty string are falsy, any other string is truthy. -/
def truthyStr : Option String → Bool
  | none => false
  | some s => s != ""

/-- Destination of a socket.io emission: `io.emit` reaches every
connected client, `io.to(room).emit` reaches the clients in a room. -/
inductive Target where
  | all : Target
  | room : String → Target
deriving DecidableEq, Repr

/-- One socket.io emission produced by the WebSocketService broadcast
helpers: target, event name, the payload `type` field, the payload
`data` field and (for updates) the payload `previous_data` field.
The `timestamp` payload field is omitted from the model. -/
structure Emission where
  target : Target
  event : String
  ptype : String
  pdata : Option OrderRec
  previous_data : Option OrderRec := none
deriving DecidableEq, Repr

namespace WebSocketService

/-- Model of `WebSocketService.broadcastOrderCreated` (websocketService.js
lines 517-533): one `order-created` emission to all clients, then a
record-scoped copy to room `order-<id>` under the event name
`order-update` with `type` still `order-created`. -/
def broadcastOrderCreated (order : OrderRec) : List Emission :=
  [ { target := Target.all, event := "order-created",
      ptype := "order-created", pdata := some order },
    { target := Target.room ("order-" ++ order._id), event := "order-update",
      ptype := "order-created", pdata := some order } ]

/-- Model of `WebSocketService.broadcastOrderUpdated` (websocketService.js
lines 535-552): one `order-updated` emission to all clients carrying
`previous_data`, then a record-scoped copy to room `order-<id>` under
the event name `order-update`. -/
def broadcastOrderUpdated (order : OrderRec) (previousData : Option OrderRec) :
    List Emission :=
  [ { target := Target.all, event := "order-updated",
      ptype := "order-updated", pdata := some order,
      previous_data := previousData },
    { target := Target.room ("order-" ++ order._id), event := "order-update",
      ptype := "order-updated", pdata := some order,
      previous_data := previousData } ]

/-- Model of `WebSocketService.broadcastOrderDeleted` (websocketService.js
lines 554-570): one `order-deleted` emission to all clients, then a
record-scoped copy to room `order-<id>` under the event name
`order-update`. -/
def broadcastOrderDeleted (order : OrderRec) : List Emission :=
  [ { target := Target.all, event := "order-deleted",
      ptype := "order-deleted", pdata := some order },
    { target := Target.room ("order-" ++ order._id), event := "order-update",
      ptype := "order-deleted", pdata := some order } ]

end WebSocketService

/-- Observable action of a change-stream event handler: a socket.io
broadcast, a `broadcastCustomMessage` emission (event name plus the
order id in its payload), or a call into the email service (kind of
notification plus the order it is about). -/
inductive Output where
  | broadcast : Emission → Output
  | custom : String → String → Output
  | email : String → OrderRec → Output
deriving DecidableEq, Repr

/-- Predicate picking the email-service calls among handler outputs. -/
def isEmailOut : Output → Bool
  | Output.email _ _ => true
  | _ => false

/-- Predicate picking the socket.io broadcasts with a given event name. -/
def isBroadcastEv (ev : String) : Output → Bool
  | Output.broadcast e => e.event == ev
  | _ => false

/-- Predicate picking the `broadcastCustomMessage` emissions with a given
event name. -/
def isCustomEv (ev : String) : Output → Bool
  | Output.custom name _ => name == ev
  | _ => false

/-- Result object returned by `EmailService.sendEmail`
(emailService.js lines 109-173). -/
structure SendReturn where
  success : Bool
  message : Option String := none
  messageId : Option String := none
  error : Option String := none
deriving DecidableEq, Repr

/-- JavaScript `a || b` on a possibly-undefined string environment
variable: an absent variable and the empty string fall through to the
fallback. -/
def jsOrElse (v : Option String) (fallback : String) : String :=
  match v with
  | some s => if s == "" then fallback else s
  | none => fallback

namespace EmailService

/-- Model of `EmailService.sendEmail` (emailService.js lines 109-173).
`isConfigured` is the instance flag set by `verifyConnection`;
`emailTo` is the `EMAIL_TO` environment variable; `sendMail` stands for
`transporter.sendMail`, a call that either yields a message id or
throws (`Except.error`).  The whole send is wrapped in try/catch in the
source, so a throwing `sendMail` yields a `success := false` return
value rather than an exception.  Returned alongside the result is the
list of recipients to whom a send was actually attempted. -/
def sendEmail (isConfigured : Bool) (emailTo : Option String) (toAddr : String)
    (sendMail : String → Except String String) : SendReturn × List String :=
  if !isConfigured then
    ({ success := false, message := some "Email service not configured" }, [])
  else
    let recipient := jsOrElse emailTo toAddr
    match sendMail recipient with
    | Except.ok mid => ({ success := true, messageId := some mid }, [recipient])
    | Except.error e => ({ success := false, error := some e }, [recipient])

end EmailService

namespace ChangeStreamService

/-- Model of `ChangeStreamService.handleInsert` (changeStreamService.js
lines 110-124): broadcast the created order, then, if the document has
a truthy `email` field, call `sendOrderCreatedEmail` inside try/catch.
`emailOutcome` stands for the result of that call (`Except.error` is a
thrown rejection); both branches of the catch continue and leave the
already-produced broadcasts untouched, so the handler always returns
`Except.ok`. -/
def handleInsert (document : OrderRec) (emailOutcome : Except String SendReturn) :
    Except String (List Output) :=
  let outs := (WebSocketService.broadcastOrderCreated document).map Output.broadcast
  if truthyStr document.email then
    match emailOutcome with
    | Except.ok _r => Except.ok (outs ++ [Output.email "order-created" document])
    | Except.error _e => Except.ok (outs ++ [Output.email "order-created" document])
  else
    Except.ok outs

/-- Model of `ChangeStreamService.handleUpdate` (changeStreamService.js
lines 126-166): bail out when no document is provided; compute
`statusChanged` from the previous snapshot; always broadcast
`order-updated`; on a status change with a truthy `email` field call
`sendStatusChangeEmail`; on a status change to `delivered` additionally
emit the `order-delivered` custom broadcast.  The outputs appear in the
order the source performs them. -/
def handleUpdate (document : Option OrderRec) (previousDocument : Option OrderRec) :
    List Output :=
  match document with
  | none => []
  | some doc =>
    let statusChanged : Bool :=
      match previousDocument with
      | some prev => prev.status != doc.status
      | none => false
    (WebSocketService.broadcastOrderUpdated doc previousDocument).map Output.broadcast
      ++ (if statusChanged && truthyStr doc.email then
            [Output.email "status-change" doc] else [])
      ++ (if statusChanged && (doc.status == "delivered") then
            [Output.custom "order-delivered" doc._id] else [])

/-- Model of `ChangeStreamService.handleDelete` (changeStreamService.js
lines 168-188): when no prior snapshot is available a stub record with
the given id, `Unknown` names and status `deleted` is broadcast;
a cancellation email is sent only when a prior snapshot with a truthy
`email` field exists. -/
def handleDelete (documentKeyId : String) (previousDocument : Option OrderRec) :
    List Output :=
  let deletedOrderInfo :=
    match previousDocument with
    | some prev => prev
    | none =>
      { _id := documentKeyId, customer_name := "Unknown",
        product_name := "Unknown", status := "deleted", email := none }
  (WebSocketService.broadcastOrderDeleted deletedOrderInfo).map Output.broadcast
    ++ (match previousDocument with
        | some prev =>
          if truthyStr prev.email then [Output.email "order-cancelled" prev] else []
        | none => [])

/-- Constructor default `this.maxRetries = 5` (changeStreamService.js
line 12). -/
def maxRetries : Nat := 5

/-- Constructor default `this.retryDelay = 5000` milliseconds
(changeStreamService.js line 13). -/
def retryDelay : Nat := 5000

/-- Mutable state of a `ChangeStreamService` instance together with the
retry timers it has scheduled.  `changeStream` holds the id of the
currently stored stream object (`none` models `null`); `pendingTimers`
holds the delays of the `setTimeout` retry callbacks that have been
scheduled and have neither fired nor been cleared — the source never
stores the timer handle, so nothing can remove an entry except the
timer firing; `watchCalls` counts the `Order.collection.watch()`
invocations, i.e. the feed subscriptions opened so far. -/
structure CSState where
  isRunning : Bool
  retryCount : Nat
  changeStream : Option Nat
  pendingTimers : List Nat
  watchCalls : Nat
  nextStreamId : Nat
deriving DecidableEq, Repr

/-- Freshly constructed service (changeStreamService.js lines 6-14):
not running, no stream, retry count 0, nothing scheduled. -/
def initialState : CSState :=
  { isRunning := false, retryCount := 0, changeStream := none,
    pendingTimers := [], watchCalls := 0, nextStreamId := 0 }

/-- Success path of `ChangeStreamService.startChangeStream`
(changeStreamService.js lines 34-68): `Order.collection.watch()` opens
a new feed subscription which is stored in `this.changeStream`
(unconditionally overwriting whatever was there), and on success
`this.retryCount = 0` (line 63). -/
def startChangeStream (s : CSState) : CSState :=
  { s with changeStream := some s.nextStreamId,
           nextStreamId := s.nextStreamId + 1,
           watchCalls := s.watchCalls + 1,
           retryCount := 0 }

/-- Success path of `ChangeStreamService.start` (changeStreamService.js
lines 16-32) with MongoDB already connected: it calls
`startChangeStream()` — with no guard on `isRunning` — and then sets
`this.isRunning = true`. -/
def start (s : CSState) : CSState :=
  let s1 := startChangeStream s
  { s1 with isRunning := true }

/-- Model of `ChangeStreamService.handleError` (changeStreamService.js
lines 196-241): close and null out the stream, clear `isRunning`; if
`retryCount < maxRetries`, increment `retryCount` and schedule a
`setTimeout` retry with `delay = retryDelay * 2 ^ (retryCount - 1)`
(the incremented count), returning `some delay`; otherwise schedule
nothing and emit the `service-error` broadcast via
`broadcastCustomMessage`, reported by the boolean. -/
def handleError (s : CSState) : CSState × Option Nat × Bool :=
  let s1 := { s with changeStream := none, isRunning := false }
  if s1.retryCount < maxRetries then
    let rc := s1.retryCount + 1
    let delay := retryDelay * 2 ^ (rc - 1)
    ({ s1 with retryCount := rc, pendingTimers := s1.pendingTimers ++ [delay] },
      some delay, false)
  else
    (s1, none, true)

/-- Model of `ChangeStreamService.stop` (changeStreamService.js lines
243-257): set `isRunning = false`, close the stream if present and null
it out.  No timer handle was ever stored and the method contains no
`clearTimeout`, so `pendingTimers` is untouched. -/
def stop (s : CSState) : CSState :=
  { s with isRunning := false, changeStream := none }

/-- A pending retry timer fires and its callback (changeStreamService.js
lines 220-229) succeeds: `startChangeStream()` opens a new subscription
and `this.isRunning = true`.  Firing consumes the timer. -/
def retryTimerFires (s : CSState) : CSState :=
  match s.pendingTimers with
  | [] => s
  | _ :: rest =>
    let s1 := startChangeStream { s with pendingTimers := rest }
    { s1 with isRunning := true }

/-- Run of `k` consecutive failures against the retry logic, starting in
state `s`: the first failure is a stream error invoking `handleError`;
whenever `handleError` schedules a retry, that retry fires and
`startChangeStream` fails again, invoking `handleError` on the next
recursion step.  When `handleError` declines to schedule (attempts
exhausted) it has emitted the single `service-error` broadcast and —
since no timer is scheduled, the stream is `null` and its listeners are
gone — nothing can invoke `handleError` again, so the run ends there.
Returns the list of scheduled retry delays in order, and the number of
`service-error` broadcasts emitted. -/
def failChain : CSState → Nat → List Nat × Nat
  | _, 0 => ([], 0)
  | s, k + 1 =>
    match handleError s with
    | (s1, some d, _) =>
      let r := failChain s1 k
      (d :: r.1, r.2)
    | (_, none, _) => ([], 1)

end ChangeStreamService

/-- Step label of the feed-event processing loop: `invoke e` is the
synchronous invocation of the change handler for feed event `e`
(classification and broadcast), `complete e` is the completion of that
event's asynchronous tail (statistics broadcast, notification sends). -/
inductive Label where
  | invoke : Nat → Label
  | complete : Nat → Label
deriving DecidableEq, BEq, Repr

/-- State of the event-processing loop of `startChangeStream`
(changeStreamService.js lines 45-51): the feed events not yet emitted
(in feed order), the events whose handler was invoked but whose
asynchronous tail has not yet completed, and the trace of labels so
far. -/
structure LoopState where
  pendingFeed : List Nat
  pendingTails : List Nat
  trace : List Label
deriving DecidableEq, Repr

/-- Loop state before any feed event has been emitted. -/
def initLoop (feed : List Nat) : LoopState :=
  { pendingFeed := feed, pendingTails := [], trace := [] }

/-- One step of the event loop.  `deliver`: the change stream emits its
next event; the `change` listener is called synchronously at emission,
so the invocation happens at this step and in feed order; the listener
is an `async` callback that the emitter does not await, so the event's
asynchronous tail (`await handleChange` suspends at `await
this.webSocketService.broadcastStats()`, changeStreamService.js line
104, and at the email awaits) merely becomes pending.  `finish`: the
asynchronous tail of some previously invoked event completes; nothing
in the source orders this before later deliveries. -/
inductive LoopStep : LoopState → LoopState → Prop where
  | deliver (e : Nat) (rest pt : List Nat) (tr : List Label) :
      LoopStep ⟨e :: rest, pt, tr⟩
        ⟨rest, pt ++ [e], tr ++ [Label.invoke e]⟩
  | finish (e : Nat) (pf pt1 pt2 : List Nat) (tr : List Label) :
      LoopStep ⟨pf, pt1 ++ e :: pt2, tr⟩
        ⟨pf, pt1 ++ pt2, tr ++ [Label.complete e]⟩

/-- Reflexive-transitive closure of `LoopStep`: the executions of the
event loop. -/
inductive LoopReach : LoopState → LoopState → Prop where
  | refl (s : LoopState) : LoopReach s s
  | tail (a b c : LoopState) : LoopReach a b → LoopStep b c → LoopReach a c

/-- Sequence of handler invocations recorded in a trace, in order. -/
def invocationsOf (tr : List Label) : List Nat :=
  tr.filterMap fun l =>
    match l with
    | Label.invoke e => some e
    | Label.complete _ => none

/-- Decides whether a trace is serialized in the sense of the ordering
claim: for every two successively invoked events, the completion of the
earlier one precedes the invocation of the later one. -/
def serializedB (tr : List Label) : Bool :=
  let inv := invocationsOf tr
  (inv.zip inv.tail).all fun p =>
    tr.findIdx (fun l => l == Label.complete p.1)
      < tr.findIdx (fun l => l == Label.invoke p.2)

namespace WebSocketService

/-- Effect of `socket.join(room)` on the socket's room membership.
socket.io stores the rooms of a socket as a set, so joining a room the
socket is already in leaves the membership unchanged; the membership is
modelled as a duplicate-free list. -/
def joinRoom (rooms : List String) (r : String) : List String :=
  if r ∈ rooms then rooms else rooms ++ [r]

/-- Effect of `socket.leave(room)`: remove the room from the socket's
set if present, otherwise change nothing. -/
def leaveRoom (rooms : List String) (r : String) : List String :=
  rooms.filter fun x => x != r

/-- Model of the `subscribe-order` inbound command handler
(websocketService.js lines 464-470): when `orderId` is truthy, join
room `order-<orderId>`; the resulting room membership of the requesting
socket is returned. -/
def onSubscribeOrder (rooms : List String) (orderId : String) : List String :=
  if orderId != "" then joinRoom rooms ("order-" ++ orderId) else rooms

/-- Model of the `unsubscribe-order` inbound command handler
(websocketService.js lines 472-480): when `orderId` is truthy, leave
room `order-<orderId>`. -/
def onUnsubscribeOrder (rooms : List String) (orderId : String) : List String :=
  if orderId != "" then leaveRoom rooms ("order-" ++ orderId) else rooms

end WebSocketService

/-- Watching-state instance used by the lifecycle theorems: the service
has been started once from the freshly constructed state, so the stream
with id 0 is open and `isRunning` holds. -/
def watchingState : ChangeStreamService.CSState :=
  ChangeStreamService.start ChangeStreamService.initialState

/-- Retry recursion of `handleError` projected onto the only state
component its branch consults, the current `retryCount`
(changeStreamService.js lines 210-240 with the constructor defaults
`maxRetries = 5`, `retryDelay = 5000` inlined).  Proof helper for
relating `failChain` to a closed form. -/
def chainRC : Nat → Nat → List Nat × Nat
  | _, 0 => ([], 0)
  | rc, k + 1 =>
    if rc < 5 then
      (5000 * 2 ^ rc :: (chainRC (rc + 1) k).1, (chainRC (rc + 1) k).2)
    else ([], 1)

/-- The five backoff delays of the default retry policy, in
milliseconds. -/
def delaysAll : List Nat := [5000, 10000, 20000, 40000, 80000]

/-- Sample order in status `pending` with a contact address. -/
def sampleOrderPending : OrderRec :=
  { _id := "o1", customer_name := "Ann", product_name := "Lamp",
    status := "pending", email := some "ann@example.com" }

/-- The same sample order after moving to status `delivered`. -/
def sampleOrderDelivered : OrderRec :=
  { sampleOrderPending with status := "delivered" }

/-- C10: for every Insert, Update/Replace and Delete broadcast, the
record-scoped copy sent to the room of that record's id is emitted
under the single event name `order-update` (with a `type` payload field
naming the operation), while the broadcast-to-all copy uses the
per-operation event name. -/
theorem scoped_copy_uses_order_update (o : OrderRec) (p : Option OrderRec) :
    (WebSocketService.broadcastOrderCreated o).map
        (fun e => (e.target, e.event, e.ptype)) =
      [(Target.all, "order-created", "order-created"),
       (Target.room ("order-" ++ o._id), "order-update", "order-created")]
    ∧ (WebSocketService.broadcastOrderUpdated o p).map
        (fun e => (e.target, e.event, e.ptype)) =
      [(Target.all, "order-updated", "order-updated"),
       (Target.room ("order-" ++ o._id), "order-update", "order-updated")]
    ∧ (WebSocketService.broadcastOrderDeleted o).map
        (fun e => (e.target, e.event, e.ptype)) =
      [(Target.all, "order-deleted", "order-deleted"),
       (Target.room ("order-" ++ o._id), "order-update", "order-deleted")] :=
  ⟨rfl, rfl, rfl⟩

/-- C6: a Delete event with no prior snapshot produces exactly one
`order-deleted` broadcast, its payload is the stub record carrying the
given record id and status `deleted`, and no cancellation notification
is dispatched. -/
theorem delete_without_snapshot (orderId : String) :
    (ChangeStreamService.handleDelete orderId none).countP
        (isBroadcastEv "order-deleted") = 1
    ∧ (ChangeStreamService.handleDelete orderId none).countP isEmailOut = 0
    ∧ ChangeStreamService.handleDelete orderId none =
        [Output.broadcast
          { target := Target.all, event := "order-deleted",
            ptype := "order-deleted",
            pdata := some { _id := orderId, customer_name := "Unknown",
                            product_name := "Unknown", status := "deleted",
                            email := none } },
         Output.broadcast
          { target := Target.room ("order-" ++ orderId), event := "order-update",
            ptype := "order-deleted",
            pdata := some { _id := orderId, customer_name := "Unknown",
                            product_name := "Unknown", status := "deleted",
                            email := none } }] :=
  ⟨rfl, rfl, rfl⟩

/-- C7: with the email service unconfigured every send is a no-op that
returns the not-configured outcome and attempts no delivery; and for an
Insert event the handler's try/catch swallows any notification failure,
so the handler always returns normally with broadcasts that do not
depend on the notification outcome. -/
theorem notifications_isolated :
    (∀ (emailTo : Option String) (toAddr : String)
        (sendMail : String → Except String String),
        EmailService.sendEmail false emailTo toAddr sendMail =
          ({ success := false, message := some "Email service not configured" },
            []))
    ∧ (∀ (doc : OrderRec) (o : Except String SendReturn),
        ChangeStreamService.handleInsert doc o =
          Except.ok
            ((WebSocketService.broadcastOrderCreated doc).map Output.broadcast
              ++ (if truthyStr doc.email then [Output.email "order-created" doc]
                  else []))) := by
  refine ⟨fun _ _ _ => rfl, fun doc o => ?_⟩
  cases o <;> by_cases h : truthyStr doc.email <;>
    simp [ChangeStreamService.handleInsert, h]

/-- C9: when the `EMAIL_TO` environment variable is set (to a non-empty
value), a send is attempted to that configured address and the result
does not depend on the recipient address passed by the caller. -/
theorem email_to_overrides (v toAddr toAddr2 : String)
    (sendMail : String → Except String String) (h : v ≠ "") :
    (EmailService.sendEmail true (some v) toAddr sendMail).2 = [v]
    ∧ EmailService.sendEmail true (some v) toAddr sendMail
        = EmailService.sendEmail true (some v) toAddr2 sendMail := by
  have hb : (v == "") = false := by simpa using h
  constructor
  · simp only [EmailService.sendEmail, jsOrElse, hb, Bool.not_true, if_neg,
      Bool.false_eq_true, ite_false]
    cases hs : sendMail v <;> simp [hs]
  · simp [EmailService.sendEmail, jsOrElse, hb]

/-- Witness for `email_to_overrides` at a concrete configuration. -/
theorem email_to_overrides_witness :
    (EmailService.sendEmail true (some "ops@example.com") "ann@example.com"
        (fun _ => Except.ok "mid-1")).2 = ["ops@example.com"]
    ∧ EmailService.sendEmail true (some "ops@example.com") "ann@example.com"
        (fun _ => Except.ok "mid-1")
      = EmailService.sendEmail true (some "ops@example.com") "bob@example.com"
        (fun _ => Except.ok "mid-1") :=
  email_to_overrides "ops@example.com" "ann@example.com" "bob@example.com"
    (fun _ => Except.ok "mid-1") (by decide)

/-- C8: for every connection's room membership and record id, issuing
`subscribe-order` twice leaves the registry in the same state as
issuing it once, and issuing `unsubscribe-order` for a pair that is not
subscribed leaves the membership unchanged (and, being a total
function, raises no error). -/
theorem subscribe_idem_unsub_noop (rooms : List String) (orderId : String) :
    WebSocketService.onSubscribeOrder
        (WebSocketService.onSubscribeOrder rooms orderId) orderId
      = WebSocketService.onSubscribeOrder rooms orderId
    ∧ (("order-" ++ orderId) ∉ rooms →
        WebSocketService.onUnsubscribeOrder rooms orderId = rooms) := by
  constructor
  · by_cases h0 : orderId != ""
    · by_cases hm : ("order-" ++ orderId) ∈ rooms
      · simp [WebSocketService.onSubscribeOrder, WebSocketService.joinRoom, h0, hm]
      · simp [WebSocketService.onSubscribeOrder, WebSocketService.joinRoom, h0, hm]
    · simp [WebSocketService.onSubscribeOrder, h0]
  · intro hnm
    by_cases h0 : orderId != ""
    · simp only [WebSocketService.onUnsubscribeOrder, WebSocketService.leaveRoom,
        h0, if_true]
      refine List.filter_eq_self.mpr ?_
      intro x hx
      simp only [bne_iff_ne, ne_eq]
      intro hEq
      exact hnm (hEq ▸ hx)
    · simp [WebSocketService.onUnsubscribeOrder, h0]

/-- Witness for `subscribe_idem_unsub_noop` at a concrete membership and
record id. -/
theorem subscribe_idem_unsub_noop_witness :
    WebSocketService.onSubscribeOrder
        (WebSocketService.onSubscribeOrder ["order-7"] "42") "42"
      = WebSocketService.onSubscribeOrder ["order-7"] "42"
    ∧ WebSocketService.onUnsubscribeOrder ["order-7"] "42" = ["order-7"] := by
  have h := subscribe_idem_unsub_noop ["order-7"] "42"
  exact ⟨h.1, h.2 (by decide)⟩

/-- C5 counterexample: in the Watching state, `start()` is not a no-op —
it changes the service state and performs one more
`Order.collection.watch()` call, opening a second feed subscription. -/
theorem start_while_watching_cex :
    watchingState.isRunning = true
    ∧ ChangeStreamService.start watchingState ≠ watchingState
    ∧ (ChangeStreamService.start watchingState).watchCalls
        = watchingState.watchCalls + 1 := by
  decide

/-- C5 amended: calling `start()` while the service is already Watching
opens a second feed subscription (one more `watch()` call), stores the
new stream handle over the old one, and therefore changes the state
rather than being a no-op. -/
theorem start_opens_new_stream (s : ChangeStreamService.CSState)
    (_h : s.isRunning = true) :
    (ChangeStreamService.start s).watchCalls = s.watchCalls + 1
    ∧ (ChangeStreamService.start s).changeStream = some s.nextStreamId
    ∧ ChangeStreamService.start s ≠ s := by
  refine ⟨rfl, rfl, ?_⟩
  intro hEq
  have h2 : (ChangeStreamService.start s).watchCalls = s.watchCalls := by rw [hEq]
  simp [ChangeStreamService.start, ChangeStreamService.startChangeStream] at h2

/-- Witness for `start_opens_new_stream` at the concrete Watching
state. -/
theorem start_opens_new_stream_witness :
    (ChangeStreamService.start watchingState).watchCalls
        = watchingState.watchCalls + 1
    ∧ (ChangeStreamService.start watchingState).changeStream
        = some watchingState.nextStreamId
    ∧ ChangeStreamService.start watchingState ≠ watchingState :=
  start_opens_new_stream watchingState (by decide)

/-- C1: demonstration of the divergence on a concrete execution.  From
the Watching state a feed error schedules a retry timer; `stop()` then
runs to completion but leaves the pending timer in place (the source
stores no timer handle and calls no `clearTimeout`); when the timer
fires, its callback reopens the feed subscription (one more `watch()`
call) and sets `isRunning` back to `true` — a resubscribe attempt fires
after `stop()` has completed. -/
theorem retry_fires_after_stop :
    (ChangeStreamService.handleError watchingState).1.pendingTimers = [5000]
    ∧ (ChangeStreamService.stop
          (ChangeStreamService.handleError watchingState).1).pendingTimers
        = [5000]
    ∧ (ChangeStreamService.retryTimerFires
          (ChangeStreamService.stop
            (ChangeStreamService.handleError watchingState).1)).isRunning = true
    ∧ (ChangeStreamService.retryTimerFires
          (ChangeStreamService.stop
            (ChangeStreamService.handleError watchingState).1)).watchCalls
        = (ChangeStreamService.stop
            (ChangeStreamService.handleError watchingState).1).watchCalls + 1 := by
  decide

/-- Helper: a consecutive-failure run only consults the retry count, so
`failChain` agrees with `chainRC` once the constructor defaults
`maxRetries = 5` and `retryDelay = 5000` are inlined. -/
theorem failChain_eq_chainRC (k : Nat) :
    ∀ s : ChangeStreamService.CSState,
      ChangeStreamService.failChain s k = chainRC s.retryCount k := by
  induction k with
  | zero => intro s; rfl
  | succ k ih =>
    intro s
    by_cases h : s.retryCount < 5
    · simp only [ChangeStreamService.failChain, ChangeStreamService.handleError,
        ChangeStreamService.maxRetries, ChangeStreamService.retryDelay, chainRC,
        h, if_pos, Nat.add_sub_cancel, ih]
    · simp only [ChangeStreamService.failChain, ChangeStreamService.handleError,
        ChangeStreamService.maxRetries, ChangeStreamService.retryDelay, chainRC,
        h, if_neg, if_false]

/-- Helper: peeling one delay off the default backoff schedule. -/
theorem delaysAll_drop (rc : Nat) (h : rc < 5) :
    delaysAll.drop rc = 5000 * 2 ^ rc :: delaysAll.drop (rc + 1) := by
  interval_cases rc <;> decide

/-- Helper: closed form of the retry recursion — the scheduled delays
are a prefix of the five-element backoff schedule, and the
`service-error` broadcast happens exactly once, on the first failure
after the schedule is exhausted. -/
theorem chainRC_closed (k : Nat) :
    ∀ rc : Nat, rc ≤ 5 →
      chainRC rc k = ((delaysAll.drop rc).take k, if 6 - rc ≤ k then 1 else 0) := by
  induction k with
  | zero =>
    intro rc h
    simp only [chainRC, List.take_zero]
    rw [if_neg (by omega)]
  | succ k ih =>
    intro rc h
    by_cases hlt : rc < 5
    · have h5 : rc + 1 ≤ 5 := by omega
      simp only [chainRC, hlt, if_true, ih (rc + 1) h5]
      rw [delaysAll_drop rc hlt, List.take_succ_cons]
      have hiff : (6 - (rc + 1) ≤ k) ↔ (6 - rc ≤ k + 1) := by omega
      rw [if_congr hiff rfl rfl]
    · have hrc : rc = 5 := by omega
      subst hrc
      simp only [chainRC]
      rw [if_neg (by omega)]
      have hdrop : delaysAll.drop 5 = [] := by decide
      rw [hdrop, if_pos (by omega)]
      rfl

/-- C2: starting from the Watching state with retry count 0, a run of
consecutive resubscribe failures schedules its n-th retry (n counted
from 0 here, at most five retries ever) with delay
`retryDelay * 2 ^ n`, i.e. 5s, 10s, 20s, 40s, 80s; a sixth retry is
never scheduled, and once the attempts are exhausted (the sixth
consecutive failure) the `service-error` broadcast is emitted exactly
once. -/
theorem retry_backoff_schedule (k : Nat) :
    (ChangeStreamService.failChain watchingState k).1
        = ((List.range 5).map fun n => ChangeStreamService.retryDelay * 2 ^ n).take k
    ∧ (ChangeStreamService.failChain watchingState k).1.length ≤ 5
    ∧ (ChangeStreamService.failChain watchingState k).2
        = (if 6 ≤ k then 1 else 0) := by
  have h1 := failChain_eq_chainRC k watchingState
  have h0 : watchingState.retryCount = 0 := rfl
  rw [h0] at h1
  have h2 := chainRC_closed k 0 (by omega)
  simp only [Nat.sub_zero, List.drop_zero] at h2
  have hd : delaysAll
      = (List.range 5).map fun n => ChangeStreamService.retryDelay * 2 ^ n := by
    decide
  rw [h1, h2]
  refine ⟨by rw [hd], ?_, rfl⟩
  rw [List.length_take]
  have : delaysAll.length = 5 := by decide
  omega

/-- C3 (amended, proved part): in every execution of the event loop, the
change handler is invoked in exactly the order the feed delivered the
events — the trace's invocation sequence is precisely the delivered
prefix of the feed. -/
theorem handler_invoked_in_feed_order (feed : List Nat) (s : LoopState)
    (h : LoopReach (initLoop feed) s) :
    ∃ delivered, feed = delivered ++ s.pendingFeed
      ∧ invocationsOf s.trace = delivered := by
  induction h with
  | refl => exact ⟨[], rfl, rfl⟩
  | tail b c hab hbc ih =>
    obtain ⟨d, hd1, hd2⟩ := ih
    cases hbc with
    | deliver e rest pt tr =>
      refine ⟨d ++ [e], ?_, ?_⟩
      · rw [hd1]; simp
      · simp only [invocationsOf] at hd2 ⊢
        simp [List.filterMap_append, hd2]
    | finish e pf pt1 pt2 tr =>
      refine ⟨d, hd1, ?_⟩
      simp only [invocationsOf] at hd2 ⊢
      simp [List.filterMap_append, hd2]

/-- Witness for `handler_invoked_in_feed_order` after delivering the
first of two feed events. -/
theorem handler_invoked_in_feed_order_witness :
    ∃ delivered, [3, 7] = delivered ++ ([7] : List Nat)
      ∧ invocationsOf [Label.invoke 3] = delivered := by
  have hstep : LoopStep (initLoop [3, 7]) ⟨[7], [3], [Label.invoke 3]⟩ :=
    LoopStep.deliver 3 [7] [] []
  have hr : LoopReach (initLoop [3, 7]) ⟨[7], [3], [Label.invoke 3]⟩ :=
    LoopReach.tail _ _ _ (LoopReach.refl _) hstep
  exact handler_invoked_in_feed_order [3, 7] ⟨[7], [3], [Label.invoke 3]⟩ hr

/-- C3 counterexample: it is not the case that every execution of the
event loop is serialized — because the `change` listener is an async
callback the emitter does not await, the loop can deliver event 1 (and
invoke its handler) while event 0's asynchronous tail is still pending,
so event 0 is not fully processed before event 1 is accepted. -/
theorem processing_not_serialized :
    ¬ (∀ (feed : List Nat) (s : LoopState),
        LoopReach (initLoop feed) s → serializedB s.trace = true) := by
  intro hclaim
  have h1 : LoopStep (initLoop [0, 1]) ⟨[1], [0], [Label.invoke 0]⟩ :=
    LoopStep.deliver 0 [1] [] []
  have h2 : LoopStep ⟨[1], [0], [Label.invoke 0]⟩
      ⟨[], [0, 1], [Label.invoke 0, Label.invoke 1]⟩ :=
    LoopStep.deliver 1 [] [0] [Label.invoke 0]
  have h3 : LoopStep ⟨[], [0, 1], [Label.invoke 0, Label.invoke 1]⟩
      ⟨[], [1], [Label.invoke 0, Label.invoke 1, Label.complete 0]⟩ :=
    LoopStep.finish 0 [] [] [1] [Label.invoke 0, Label.invoke 1]
  have h4 : LoopStep ⟨[], [1], [Label.invoke 0, Label.invoke 1, Label.complete 0]⟩
      ⟨[], [],
        [Label.invoke 0, Label.invoke 1, Label.complete 0, Label.complete 1]⟩ :=
    LoopStep.finish 1 [] [] []
      [Label.invoke 0, Label.invoke 1, Label.complete 0]
  have hr : LoopReach (initLoop [0, 1])
      ⟨[], [],
        [Label.invoke 0, Label.invoke 1, Label.complete 0, Label.complete 1]⟩ :=
    LoopReach.tail _ _ _ (LoopReach.tail _ _ _ (LoopReach.tail _ _ _
      (LoopReach.tail _ _ _ (LoopReach.refl _) h1) h2) h3) h4
  have hres := hclaim [0, 1] _ hr
  exact absurd hres (by decide)

/-- C4: for an Update event, equal statuses dispatch no status-change
notification; differing statuses with a truthy contact address dispatch
exactly one; and differing statuses with new status `delivered` produce
both the `order-updated` broadcast-to-all and the dedicated
`order-delivered` custom broadcast. -/
theorem update_notification_policy (doc prev : OrderRec) :
    (prev.status = doc.status →
        (ChangeStreamService.handleUpdate (some doc) (some prev)).countP
          isEmailOut = 0)
    ∧ (prev.status ≠ doc.status → truthyStr doc.email = true →
        (ChangeStreamService.handleUpdate (some doc) (some prev)).countP
          isEmailOut = 1)
    ∧ (prev.status ≠ doc.status → doc.status = "delivered" →
        (ChangeStreamService.handleUpdate (some doc) (some prev)).countP
            (isBroadcastEv "order-updated") = 1
          ∧ (ChangeStreamService.handleUpdate (some doc) (some prev)).countP
            (isCustomEv "order-delivered") = 1) := by
  refine ⟨?_, ?_, ?_⟩
  · intro h
    simp [ChangeStreamService.handleUpdate, WebSocketService.broadcastOrderUpdated,
      h, isEmailOut, List.countP_cons]
  · intro h hem
    have hb : (prev.status != doc.status) = true := by
      simpa using h
    by_cases hd : (doc.status == "delivered") = true <;>
      simp [ChangeStreamService.handleUpdate, WebSocketService.broadcastOrderUpdated,
        hb, hem, hd, isEmailOut, List.countP_cons, List.countP_append]
  · intro h hdel
    have hb : (prev.status != doc.status) = true := by
      simpa using h
    have hd : (doc.status == "delivered") = true := by
      simpa using hdel
    by_cases hem : truthyStr doc.email = true <;>
      constructor <;>
        simp [ChangeStreamService.handleUpdate,
          WebSocketService.broadcastOrderUpdated, hb, hd, hem, isEmailOut,
          isBroadcastEv, isCustomEv, List.countP_cons, List.countP_append]

/-- Witness for `update_notification_policy` at concrete orders: a
status-preserving update dispatches no notification, and a
`pending → delivered` update dispatches one notification and both
broadcasts. -/
theorem update_notification_policy_witness :
    ((ChangeStreamService.handleUpdate (some sampleOrderPending)
        (some sampleOrderPending)).countP isEmailOut = 0)
    ∧ ((ChangeStreamService.handleUpdate (some sampleOrderDelivered)
        (some sampleOrderPending)).countP isEmailOut = 1)
    ∧ ((ChangeStreamService.handleUpdate (some sampleOrderDelivered)
        (some sampleOrderPending)).countP (isBroadcastEv "order-updated") = 1)
    ∧ ((ChangeStreamService.handleUpdate (some sampleOrderDelivered)
        (some sampleOrderPending)).countP (isCustomEv "order-delivered") = 1) := by
  have h1 := update_notification_policy sampleOrderPending sampleOrderPending
  have h2 := update_notification_policy sampleOrderDelivered sampleOrderPending
  have hboth := h2.2.2 (by decide) (by decide)
  exact ⟨h1.1 rfl, h2.2.1 (by decide) (by decide), hboth.1, hboth.2⟩
